import Mathlib

/-!
Shallow embedding of the `Xe/dploy` rollout tool.

Source files:
* `lib/backplane/request.go` — HTTP client for the backplane.io routing plane
  (`Client`, `New`, `API`, `Query`, `Route`, `Shape`, `GenToken`) and the data
  records (`Route`, `Endpoint`, `Backend`, `QueryResponse`).
* `main.go` — the rollout driver (`main`, `shape`, `waitForContainers`).

Modelling conventions:
* The network is an oracle `respond : APIRequest → HTTPResponse` passed to each
  operation; every operation returns, besides its result, the list of requests
  it actually sent, so that "no retry / no call was made" claims are statements
  about that list.
* Go maps built by literal insertion (`map[string]int{old: ow, new: nw}`) are
  modelled as association lists with overwrite-on-duplicate-key insertion,
  matching Go's runtime semantics for duplicate keys.
* JSON decoding of a response body is an abstract parameter
  `decode : String → Except String α` (the `encoding/json` library is external
  to this repository).
* `time.Time` fields (`Endpoint.CreatedAt`, `Backend.ConnectedAt`) and the
  float geolocation record are not inspected by any code path under study and
  are omitted from the records.
* `log.Fatal` terminates the process; it is modelled by the enclosing function
  returning its failure outcome with no further events.
-/

namespace Backplane

/-- Record `Route` (request.go): a weighted traffic target under an Endpoint.
Fields beyond `ID` and `Weight` keep their Go zero values where the code
builds a literal. -/
structure Route where
  ID : String
  RawSelector : String
  Weight : Int
  Strategy : String
  Backends : List String
deriving DecidableEq, Repr

/-- Record `Backend` (request.go): one running service instance.  The
`ConnectedAt` timestamp and geolocation are omitted (never read by dploy). -/
structure Backend where
  ID : String
  Owner : String
  RawLabels : String
  Load : Int
  RemoteAddr : String
  RequestsPerSecond : Int
  State : String
deriving DecidableEq, Repr

/-- Record `Endpoint` (request.go): a traffic-matching pattern grouping
Routes.  `CreatedAt` is omitted (never read by dploy). -/
structure Endpoint where
  Pattern : String
  Owner : String
  Routes : List Route
deriving DecidableEq, Repr

/-- Record `QueryResponse` (request.go): the topology snapshot returned by
`GET /q`. -/
structure QueryResponse where
  Token : String
  Endpoints : List Endpoint
  Backends : List Backend
deriving DecidableEq, Repr

/-- Record `Client` (request.go): carries only the auth token. -/
structure Client where
  token : String
deriving DecidableEq, Repr

/-- Constructor `New` (request.go lines 24-26): `return &Client{token}, nil` — always
succeeds, performing no validation of the token. -/
def New (token : String) : Except String Client :=
  .ok ⟨token⟩

/-- The wire requests `Client.API` can send.  `query` is `GET /q`,
`createRoute` is `POST /route`, `setWeights` is `POST /shape`. -/
inductive APIRequest where
  | query : APIRequest
  | createRoute (pattern : String) (rawSelector : String) : APIRequest
  | setWeights (pattern : String) (routes : List Route) : APIRequest
deriving DecidableEq, Repr

/-- An HTTP response as seen by `Client.API`. -/
structure HTTPResponse where
  statusCode : Nat
  body : String
deriving DecidableEq, Repr

/-- The response-handling core of `Client.API` (request.go lines 38-83):
one round trip via `respond`; a non-200 status yields an error carrying the
response body text; otherwise the raw body is returned for decoding.  The
second component lists the requests sent (always exactly one — the code has
no retry loop). -/
def API (req : APIRequest) (respond : APIRequest → HTTPResponse) :
    Except String String × List APIRequest :=
  let resp := respond req
  (if resp.statusCode ≠ 200 then
    .error ("backplane: request failed " ++ resp.body)
  else
    .ok resp.body,
  [req])

/-- Operation `Client.Query` (request.go lines 137-145): `GET /q`, decode the body into
a `QueryResponse`. -/
def Query (respond : APIRequest → HTTPResponse)
    (decode : String → Except String QueryResponse) :
    Except String QueryResponse × List APIRequest :=
  let res := API .query respond
  (match res.1 with
   | .error e => .error e
   | .ok body => decode body,
  res.2)

/-- The `Route` literal `Route{ID: route, Weight: weight}` built inside
`Client.Shape`: all other fields take their Go zero values. -/
def weightRoute (id : String) (w : Int) : Route :=
  ⟨id, "", w, "", []⟩

/-- Operation `Client.Shape` (request.go lines 182-203): converts the weight map into a
list of `Route{ID, Weight}` entries and `POST`s them to `/shape`.  No
validation of the weights is performed. -/
def Shape (endpoint : String) (weights : List (String × Int))
    (respond : APIRequest → HTTPResponse) :
    Except String Unit × List APIRequest :=
  let routes := weights.map fun p => weightRoute p.1 p.2
  let res := API (.setWeights endpoint routes) respond
  (match res.1 with
   | .error e => .error e
   | .ok _ => .ok (),
  res.2)

/-- Operation `Client.GenToken` (request.go lines 206-213): call `Query`; on failure
propagate the error, on success return the snapshot's `Token` field. -/
def GenToken (respond : APIRequest → HTTPResponse)
    (decode : String → Except String QueryResponse) :
    Except String String × List APIRequest :=
  let res := Query respond decode
  (match res.1 with
   | .error e => .error e
   | .ok q => .ok q.Token,
  res.2)

end Backplane

open Backplane

/-- Overwrite-on-duplicate insertion into an association list: the semantics
of assigning `m[k] = v` on a Go map modelled as an ordered list of entries. -/
def mapInsert : List (String × Int) → String → Int → List (String × Int)
  | [], k, v => [(k, v)]
  | (k', v') :: rest, k, v =>
    if k' = k then (k, v) :: rest else (k', v') :: mapInsert rest k v

/-- The Go map literal `map[string]int{oldroute: oldweight, newroute:
newweight}` from `shape` (main.go line 208): insert the old entry, then the
new entry; equal keys collapse to the later value. -/
def shapeWeightMap (oldroute newroute : String) (oldweight newweight : Int) :
    List (String × Int) :=
  mapInsert (mapInsert [] oldroute oldweight) newroute newweight

/-- Helper `shape` (main.go lines 207-217): build the two-entry weight map and call
`Client.Shape` on the endpoint. -/
def shape (endpoint : String) (oldroute newroute : String)
    (oldweight newweight : Int) (respond : APIRequest → HTTPResponse) :
    Except String Unit × List APIRequest :=
  Backplane.Shape endpoint (shapeWeightMap oldroute newroute oldweight newweight)
    respond

/-- An observable event of the rollout driver: a wire request being sent, or a
`time.Sleep(*shapePause)` pause. -/
inductive Event where
  | call (req : APIRequest) : Event
  | pause : Event
deriving DecidableEq, Repr

/-- The shaping section of `main` (main.go lines 99-132): four `shape` calls
at (75,25), (50,50), (25,75), (0,100), a `time.Sleep(*shapePause)` after each
of the first three, `log.Fatal` (no further events) on any failure.
`respond i` answers the `i`-th shape call.  Returns the event trace and
whether the run completed. -/
def shapingPhase (endpoint oldID newID : String)
    (respond : Nat → APIRequest → HTTPResponse) : List Event × Bool :=
  let p1 := shape endpoint oldID newID 75 25 (respond 0)
  let t1 := p1.2.map Event.call
  match p1.1 with
  | .error _ => (t1, false)
  | .ok _ =>
    let p2 := shape endpoint oldID newID 50 50 (respond 1)
    let t2 := t1 ++ [Event.pause] ++ p2.2.map Event.call
    match p2.1 with
    | .error _ => (t2, false)
    | .ok _ =>
      let p3 := shape endpoint oldID newID 25 75 (respond 2)
      let t3 := t2 ++ [Event.pause] ++ p3.2.map Event.call
      match p3.1 with
      | .error _ => (t3, false)
      | .ok _ =>
        let p4 := shape endpoint oldID newID 0 100 (respond 3)
        let t4 := t3 ++ [Event.pause] ++ p4.2.map Event.call
        match p4.1 with
        | .error _ => (t4, false)
        | .ok _ => (t4, true)

/-- The Go zero value of `backplane.Route`, left in `oldRoute` when no route
matches (main.go line 91: `var oldRoute backplane.Route`). -/
def zeroRoute : Route := ⟨"", "", 0, "", []⟩

/-- The Go zero value of `backplane.Endpoint`, left in `myEndpoint` when no
endpoint matches (main.go line 83: `var myEndpoint backplane.Endpoint`). -/
def zeroEndpoint : Endpoint := ⟨"", "", []⟩

/-- Endpoint selection in `main` (main.go lines 84-89): first endpoint whose
`Pattern` equals the configured endpoint, else the zero value. -/
def findEndpoint (pattern : String) : List Endpoint → Endpoint
  | [] => zeroEndpoint
  | e :: rest => if pattern = e.Pattern then e else findEndpoint pattern rest

/-- Incumbent-route selection in `main` (main.go lines 92-97): first route
with `Weight == 100`, else the zero value.  No error is raised when none
exists. -/
def findIncumbent : List Route → Route
  | [] => zeroRoute
  | r :: rest => if r.Weight = 100 then r else findIncumbent rest

/-- Function `main` from the topology query through shaping (main.go lines 77-132):
on a query failure `log.Fatal` stops everything (empty trace); otherwise
select the endpoint and the weight-100 incumbent and run the shaping
sequence with the incumbent's ID as the old route. -/
def mainShapeSection (endpoint routeID : String)
    (queryResult : Except String QueryResponse)
    (respond : Nat → APIRequest → HTTPResponse) : List Event × Bool :=
  match queryResult with
  | .error _ => ([], false)
  | .ok q =>
    let myEndpoint := findEndpoint endpoint q.Endpoints
    let oldRoute := findIncumbent myEndpoint.Routes
    shapingPhase endpoint oldRoute.ID routeID respond

/-- The per-route readiness test inside `waitForContainers` (main.go lines
236-242): the route's ID equals the target and the number of bound backends
EQUALS the replica count. -/
def routeReady (routeID : String) (replicaCount : Nat) (r : Route) : Bool :=
  r.ID == routeID && r.Backends.length == replicaCount

/-- One snapshot's readiness test in `waitForContainers` (main.go lines
231-243): some endpoint matches the pattern and contains a ready route. -/
def snapshotReady (pattern routeID : String) (replicaCount : Nat)
    (q : QueryResponse) : Bool :=
  q.Endpoints.any fun e =>
    pattern == e.Pattern && e.Routes.any (routeReady routeID replicaCount)

/-- Outcome of running the `waitForContainers` poll loop against a finite
prefix of query results. -/
inductive WaitOutcome where
  | exitAfter (polls : Nat) : WaitOutcome
  | fatal (msg : String) : WaitOutcome
  | stillWaiting : WaitOutcome
deriving DecidableEq, Repr

/-- Loop `waitForContainers` (main.go lines 219-245) run over the successive
results of its once-per-second `bp.Query()` calls: a query error is
`log.Fatal` (abort, no more polling); a ready snapshot breaks the loop;
otherwise poll again.  `exitAfter n` means the loop broke after consuming
`n` query results; `stillWaiting` means the loop is still running when the
supplied prefix ends. -/
def waitForContainers (pattern routeID : String) (replicaCount : Nat) :
    List (Except String QueryResponse) → WaitOutcome
  | [] => .stillWaiting
  | .error e :: _ => .fatal e
  | .ok q :: rest =>
    if snapshotReady pattern routeID replicaCount q then
      .exitAfter 1
    else
      match waitForContainers pattern routeID replicaCount rest with
      | .exitAfter n => .exitAfter (n + 1)
      | o => o

/-! ### Helper lemmas -/

/-- The weight map for distinct route IDs holds the two entries in insertion
order. -/
theorem shapeWeightMap_ne (oldroute newroute : String) (ow nw : Int)
    (hne : oldroute ≠ newroute) :
    shapeWeightMap oldroute newroute ow nw = [(oldroute, ow), (newroute, nw)] := by
  simp [shapeWeightMap, mapInsert, hne]

/-- Under all-200 responses and distinct route IDs, the shaping section of
`main` completes and produces the full interleaved trace. -/
theorem shapingPhase_all200 (ep oldID newID : String)
    (respond : Nat → APIRequest → HTTPResponse)
    (hne : oldID ≠ newID) (h200 : ∀ i r, (respond i r).statusCode = 200) :
    shapingPhase ep oldID newID respond =
      ([.call (.setWeights ep [weightRoute oldID 75, weightRoute newID 25]),
        .pause,
        .call (.setWeights ep [weightRoute oldID 50, weightRoute newID 50]),
        .pause,
        .call (.setWeights ep [weightRoute oldID 25, weightRoute newID 75]),
        .pause,
        .call (.setWeights ep [weightRoute oldID 0, weightRoute newID 100])],
       true) := by
  have hshape : ∀ (i : Nat) (ow nw : Int),
      shape ep oldID newID ow nw (respond i) =
        (.ok (), [.setWeights ep [weightRoute oldID ow, weightRoute newID nw]]) := by
    intro i ow nw
    simp [shape, Backplane.Shape, Backplane.API,
      shapeWeightMap_ne oldID newID ow nw hne, h200 i]
  simp [shapingPhase, hshape]

/-- When no route of the list has weight 100, the incumbent scan of `main`
falls through and leaves the zero-value route. -/
theorem findIncumbent_eq_zero (l : List Route) (h : ∀ r ∈ l, r.Weight ≠ 100) :
    findIncumbent l = zeroRoute := by
  induction l with
  | nil => rfl
  | cons r rest ih =>
    rw [findIncumbent, if_neg (h r (by simp))]
    exact ih fun x hx => h x (by simp [hx])

/-- Characterisation of a snapshot passing the readiness check: some endpoint
with the target pattern has a route with the target ID whose bound-backend
list length EQUALS the replica count. -/
theorem snapshotReady_iff (pattern routeID : String) (n : Nat)
    (q : QueryResponse) :
    snapshotReady pattern routeID n q = true ↔
      ∃ e ∈ q.Endpoints, pattern = e.Pattern ∧
        ∃ r ∈ e.Routes, r.ID = routeID ∧ r.Backends.length = n := by
  simp [snapshotReady, routeReady, List.any_eq_true]

/-- A snapshot in which no endpoint of the target pattern has a route with the
target ID fails the readiness check. -/
theorem snapshotReady_eq_false (pattern routeID : String) (n : Nat)
    (q : QueryResponse)
    (habs : ∀ e ∈ q.Endpoints, pattern = e.Pattern → ∀ r ∈ e.Routes, r.ID ≠ routeID) :
    snapshotReady pattern routeID n q = false := by
  rw [Bool.eq_false_iff]
  intro hr
  rcases (snapshotReady_iff pattern routeID n q).mp hr with
    ⟨e, he, hp, r, hr', hid, _⟩
  exact habs e he hp r hr' hid

/-- The poll loop exits as soon as a snapshot passes the (equality-based)
readiness check, after consuming every earlier not-ready snapshot. -/
theorem waitForContainers_first_ready (pattern routeID : String) (n : Nat)
    (pre : List QueryResponse) (q : QueryResponse)
    (rest : List (Except String QueryResponse))
    (hpre : ∀ p ∈ pre, snapshotReady pattern routeID n p = false)
    (hq : snapshotReady pattern routeID n q = true) :
    waitForContainers pattern routeID n
      (pre.map Except.ok ++ Except.ok q :: rest) = .exitAfter (pre.length + 1) := by
  induction pre with
  | nil => simp [waitForContainers, hq]
  | cons p pre ih =>
    have hp := hpre p (by simp)
    rw [List.map_cons, List.cons_append, waitForContainers, if_neg (by simp [hp]),
      ih fun x hx => hpre x (by simp [hx])]
    simp

/-! ### Claim C8 -/

/-- C8: `GenToken` is a derived operation: its result is exactly the `Token`
field of the snapshot the underlying `Query` returns, it fails exactly when
that `Query` fails (with the same error), and it sends exactly the requests
`Query` sends. -/
theorem C8_gentoken_refines_query (respond : APIRequest → HTTPResponse)
    (decode : String → Except String QueryResponse) :
    GenToken respond decode =
      (Except.map QueryResponse.Token (Query respond decode).1,
       (Query respond decode).2) := by
  unfold GenToken
  cases h : (Query respond decode).1 <;> simp [h, Except.map]

/-! ### Claim C9 -/

/-- C9: client construction never fails: for every token string, including
the empty one, `New` returns the client wrapping that token and a nil
error, with no validation performed. -/
theorem C9_new_never_fails (token : String) :
    Backplane.New token = Except.ok ⟨token⟩ :=
  rfl

/-! ### Claim C10 -/

/-- C10: when the old route ID equals the new route ID, the weight map built
by `shape` collapses to a single entry carrying the NEW weight (the old
weight is silently discarded), and the request sent to the routing plane
holds that single route entry. -/
theorem C10_duplicate_route_single_entry (ep oldroute newroute : String)
    (ow nw : Int) (respond : APIRequest → HTTPResponse)
    (h : oldroute = newroute) :
    (shape ep oldroute newroute ow nw respond).2 =
      [.setWeights ep [weightRoute newroute nw]] := by
  subst h
  simp [shape, shapeWeightMap, mapInsert, Backplane.Shape, Backplane.API]

/-- Witness for C10 at a concrete duplicate route ID. -/
theorem C10_duplicate_route_single_entry_witness :
    ("r9" : String) = "r9" ∧
    (shape "example.com" "r9" "r9" 75 25 (fun _ => ⟨200, ""⟩)).2 =
      [.setWeights "example.com" [weightRoute "r9" 25]] :=
  ⟨rfl, C10_duplicate_route_single_entry "example.com" "r9" "r9" 75 25
    (fun _ => ⟨200, ""⟩) rfl⟩

/-! ### Claim C3 -/

/-- C3: for a rollout whose incumbent selection yields route `r1` and whose
new route is `r2 ≠ r1`, when every shape call succeeds the shaping phase
issues exactly the setWeights calls `{r1:75,r2:25}`, `{r1:50,r2:50}`,
`{r1:25,r2:75}`, `{r1:0,r2:100}`, in that order, with no other calls. -/
theorem C3_shaping_sequence (ep r1 r2 : String) (q : QueryResponse)
    (respond : Nat → APIRequest → HTTPResponse)
    (hinc : (findIncumbent (findEndpoint ep q.Endpoints).Routes).ID = r1)
    (hne : r1 ≠ r2) (h200 : ∀ i r, (respond i r).statusCode = 200) :
    mainShapeSection ep r2 (Except.ok q) respond =
      ([.call (.setWeights ep [weightRoute r1 75, weightRoute r2 25]),
        .pause,
        .call (.setWeights ep [weightRoute r1 50, weightRoute r2 50]),
        .pause,
        .call (.setWeights ep [weightRoute r1 25, weightRoute r2 75]),
        .pause,
        .call (.setWeights ep [weightRoute r1 0, weightRoute r2 100])],
       true) := by
  have hms : mainShapeSection ep r2 (Except.ok q) respond =
      shapingPhase ep (findIncumbent (findEndpoint ep q.Endpoints).Routes).ID
        r2 respond := rfl
  rw [hms, hinc]
  exact shapingPhase_all200 ep r1 r2 respond hne h200

/-- Witness for C3: the spec's end-to-end scenario, an endpoint
`example.com` with `r1` at weight 100 and `r2` at weight 0, all calls
succeeding. -/
theorem C3_shaping_sequence_witness :
    (findIncumbent (findEndpoint "example.com"
        (QueryResponse.mk "tok"
          [Endpoint.mk "example.com" "me"
            [Route.mk "r1" "" 100 "" ["b"], Route.mk "r2" "" 0 "" ["b"]]]
          []).Endpoints).Routes).ID = "r1" ∧
    ("r1" : String) ≠ "r2" ∧
    mainShapeSection "example.com" "r2"
      (Except.ok (QueryResponse.mk "tok"
        [Endpoint.mk "example.com" "me"
          [Route.mk "r1" "" 100 "" ["b"], Route.mk "r2" "" 0 "" ["b"]]]
        []))
      (fun _ _ => ⟨200, ""⟩) =
      ([.call (.setWeights "example.com" [weightRoute "r1" 75, weightRoute "r2" 25]),
        .pause,
        .call (.setWeights "example.com" [weightRoute "r1" 50, weightRoute "r2" 50]),
        .pause,
        .call (.setWeights "example.com" [weightRoute "r1" 25, weightRoute "r2" 75]),
        .pause,
        .call (.setWeights "example.com" [weightRoute "r1" 0, weightRoute "r2" 100])],
       true) :=
  ⟨by decide, by decide,
    C3_shaping_sequence "example.com" "r1" "r2" _ _ (by decide) (by decide)
      (fun _ _ => rfl)⟩

/-! ### Claim C4 -/

/-- C4: in a successful run of the shaping sequence the trace is four
weight-applying calls with exactly one pause between each consecutive pair
(4 steps, 3 pauses) and zero pauses after the final full-cutover step. -/
theorem C4_pause_structure (ep oldID newID : String)
    (respond : Nat → APIRequest → HTTPResponse)
    (hne : oldID ≠ newID) (h200 : ∀ i r, (respond i r).statusCode = 200) :
    (shapingPhase ep oldID newID respond).2 = true ∧
    ∃ c1 c2 c3 c4 : APIRequest,
      (shapingPhase ep oldID newID respond).1 =
        [.call c1, .pause, .call c2, .pause, .call c3, .pause, .call c4] := by
  rw [shapingPhase_all200 ep oldID newID respond hne h200]
  exact ⟨rfl, _, _, _, _, rfl⟩

/-- Witness for C4 at concrete routes and an all-200 network. -/
theorem C4_pause_structure_witness :
    ("old0" : String) ≠ "new0" ∧
    ((shapingPhase "site.example" "old0" "new0" (fun _ _ => ⟨200, "{}"⟩)).2 = true ∧
     ∃ c1 c2 c3 c4 : APIRequest,
       (shapingPhase "site.example" "old0" "new0" (fun _ _ => ⟨200, "{}"⟩)).1 =
         [.call c1, .pause, .call c2, .pause, .call c3, .pause, .call c4]) :=
  ⟨by decide,
    C4_pause_structure "site.example" "old0" "new0" (fun _ _ => ⟨200, "{}"⟩)
      (by decide) (fun _ _ => rfl)⟩

/-! ### Claim C5 -/

/-- Per-event form of the spec's plan-validation property: every
`setWeights` call carries route weights summing to 100. -/
def eventWeightsSum100 : Event → Bool
  | .call (.setWeights _ rs) => (rs.map Route.Weight).sum == 100
  | _ => true

/-- C5 counterexample: the code contains no `InvalidPlanError` validation —
a shape call whose weights sum to 95 still performs its network round trip
and succeeds. -/
theorem C5_no_plan_validation_counterexample :
    (Backplane.Shape "example.com" [("r1", 70), ("r2", 25)]
        (fun _ => ⟨200, ""⟩)).1 = Except.ok () ∧
    (Backplane.Shape "example.com" [("r1", 70), ("r2", 25)]
        (fun _ => ⟨200, ""⟩)).2 =
      [.setWeights "example.com" [weightRoute "r1" 70, weightRoute "r2" 25]] ∧
    (70 : Int) + 25 ≠ 100 :=
  ⟨rfl, rfl, by decide⟩

/-- C5 amended: every step the program's own (hard-coded) shaping sequence
sends does sum to 100; but no validation step exists — `Client.Shape`
performs exactly one network call for ANY weight list, never rejecting a
plan. -/
theorem C5_plan_sums_amended (ep oldID newID : String)
    (respond : Nat → APIRequest → HTTPResponse)
    (ws : List (String × Int)) (respond2 : APIRequest → HTTPResponse)
    (hne : oldID ≠ newID) (h200 : ∀ i r, (respond i r).statusCode = 200) :
    ((shapingPhase ep oldID newID respond).1).all eventWeightsSum100 = true ∧
    (Backplane.Shape ep ws respond2).2.length = 1 := by
  constructor
  · rw [shapingPhase_all200 ep oldID newID respond hne h200]
    simp [eventWeightsSum100, weightRoute]
  · rfl

/-- Witness for the amended C5: concrete distinct routes, an all-200
network, and a deliberately invalid weight list that is still sent. -/
theorem C5_plan_sums_amended_witness :
    ("oldr" : String) ≠ "newr" ∧
    (((shapingPhase "example.com" "oldr" "newr" (fun _ _ => ⟨200, ""⟩)).1).all
        eventWeightsSum100 = true ∧
     (Backplane.Shape "example.com" [("a", 10), ("b", 20)]
        (fun _ => ⟨200, ""⟩)).2.length = 1) :=
  ⟨by decide,
    C5_plan_sums_amended "example.com" "oldr" "newr" (fun _ _ => ⟨200, ""⟩)
      [("a", 10), ("b", 20)] (fun _ => ⟨200, ""⟩) (by decide) (fun _ _ => rfl)⟩

/-! ### Claim C6 -/

/-- C6: a non-200 response to any routing-plane call makes `Client.API`
return an error carrying the response body text after exactly one round trip
(no retry); a shaping step answered non-200 ends the rollout at that call
(one call sent, run not completed); a failed query ends the rollout before
any shaping event. -/
theorem C6_non200_fatal (req : APIRequest) (respond : APIRequest → HTTPResponse)
    (rsp : Nat → APIRequest → HTTPResponse) (ep oldID newID msg : String)
    (hbad : (respond req).statusCode ≠ 200)
    (hbad0 : ∀ r, (rsp 0 r).statusCode ≠ 200) :
    Backplane.API req respond =
      (.error ("backplane: request failed " ++ (respond req).body), [req]) ∧
    shapingPhase ep oldID newID rsp =
      ([.call (.setWeights ep ((shapeWeightMap oldID newID 75 25).map
          fun p => weightRoute p.1 p.2))], false) ∧
    mainShapeSection ep newID (Except.error msg) rsp = ([], false) := by
  refine ⟨?_, ?_, rfl⟩
  · simp [Backplane.API, hbad]
  · simp [shapingPhase, shape, Backplane.Shape, Backplane.API, hbad0]

/-- Witness for C6 at a concrete 500/503 network. -/
theorem C6_non200_fatal_witness :
    ((fun _ => (⟨500, "oops"⟩ : HTTPResponse)) APIRequest.query).statusCode ≠ 200 ∧
    (∀ r, ((fun _ (_ : APIRequest) => (⟨503, "bad"⟩ : HTTPResponse)) 0 r).statusCode ≠ 200) ∧
    (Backplane.API .query (fun _ => ⟨500, "oops"⟩) =
      (.error ("backplane: request failed " ++
        ((fun _ => (⟨500, "oops"⟩ : HTTPResponse)) APIRequest.query).body), [.query]) ∧
     shapingPhase "example.com" "r1" "r2" (fun _ _ => ⟨503, "bad"⟩) =
      ([.call (.setWeights "example.com" ((shapeWeightMap "r1" "r2" 75 25).map
          fun p => weightRoute p.1 p.2))], false) ∧
     mainShapeSection "example.com" "r2" (Except.error "x")
        (fun _ _ => ⟨503, "bad"⟩) = ([], false)) :=
  ⟨by decide, fun _ => (by decide : (503 : Nat) ≠ 200),
    C6_non200_fatal APIRequest.query (fun _ => ⟨500, "oops"⟩)
      (fun _ _ => ⟨503, "bad"⟩) "example.com" "r1" "r2" "x"
      (by decide) (fun _ => (by decide : (503 : Nat) ≠ 200))⟩

/-! ### Claim C1 -/

/-- C1 counterexample: a topology whose target endpoint has a route at
weight 50 and none at weight 100.  The claim predicts a fatal
`NoIncumbentRouteError` and no setWeights calls; instead the code proceeds,
and its first event is a setWeights call using the empty-string route ID. -/
theorem C1_no_incumbent_error_counterexample :
    (mainShapeSection "example.com" "r2"
        (Except.ok (QueryResponse.mk "tok"
          [Endpoint.mk "example.com" "me" [Route.mk "r1" "" 50 "" ["b"]]] []))
        (fun _ _ => ⟨200, ""⟩)).1.head? =
      some (.call (.setWeights "example.com"
        [weightRoute "" 75, weightRoute "r2" 25])) ∧
    (mainShapeSection "example.com" "r2"
        (Except.ok (QueryResponse.mk "tok"
          [Endpoint.mk "example.com" "me" [Route.mk "r1" "" 50 "" ["b"]]] []))
        (fun _ _ => ⟨200, ""⟩)).1 ≠ [] := by
  constructor
  · decide
  · decide

/-- C1 amended: the controller performs no incumbent check at all: whenever
the target endpoint has no weight-100 route, the incumbent stays the
zero-value `Route` and shaping proceeds with the empty-string route ID as
the old route. -/
theorem C1_zero_incumbent_amended (pattern routeID : String)
    (q : QueryResponse) (respond : Nat → APIRequest → HTTPResponse)
    (habs : ∀ r ∈ (findEndpoint pattern q.Endpoints).Routes, r.Weight ≠ 100) :
    findIncumbent (findEndpoint pattern q.Endpoints).Routes = zeroRoute ∧
    mainShapeSection pattern routeID (Except.ok q) respond =
      shapingPhase pattern "" routeID respond := by
  have h1 := findIncumbent_eq_zero _ habs
  refine ⟨h1, ?_⟩
  have hms : mainShapeSection pattern routeID (Except.ok q) respond =
      shapingPhase pattern
        (findIncumbent (findEndpoint pattern q.Endpoints).Routes).ID
        routeID respond := rfl
  rw [hms, h1]
  rfl

/-- Witness for the amended C1 at the counterexample topology. -/
theorem C1_zero_incumbent_amended_witness :
    (∀ r ∈ (findEndpoint "example.com"
        (QueryResponse.mk "tok"
          [Endpoint.mk "example.com" "me" [Route.mk "r1" "" 50 "" ["b"]]]
          []).Endpoints).Routes, r.Weight ≠ 100) ∧
    (findIncumbent (findEndpoint "example.com"
        (QueryResponse.mk "tok"
          [Endpoint.mk "example.com" "me" [Route.mk "r1" "" 50 "" ["b"]]]
          []).Endpoints).Routes = zeroRoute ∧
     mainShapeSection "example.com" "r2"
        (Except.ok (QueryResponse.mk "tok"
          [Endpoint.mk "example.com" "me" [Route.mk "r1" "" 50 "" ["b"]]] []))
        (fun _ _ => ⟨200, ""⟩) =
      shapingPhase "example.com" "" "r2" (fun _ _ => ⟨200, ""⟩)) :=
  ⟨by decide, C1_zero_incumbent_amended "example.com" "r2" _ _ (by decide)⟩

/-! ### Claim C2 -/

/-- C2 counterexample: desired count 2, one snapshot whose target route has
3 bound backends.  The count strictly exceeds the desired count, so the
claim predicts the wait returns at this snapshot; the code compares with
equality and keeps polling instead. -/
theorem C2_exceeded_count_counterexample :
    waitForContainers "example.com" "r2" 2
      [Except.ok (QueryResponse.mk "tok"
        [Endpoint.mk "example.com" "me"
          [Route.mk "r2" "" 0 "" ["b1", "b2", "b3"]]] [])] = .stillWaiting := by
  decide

/-- C2 amended: the wait returns at the first snapshot whose bound-backend
count for the target route EQUALS the desired count (all earlier snapshots
being not ready), and a snapshot is ready precisely when some endpoint of
the target pattern holds the target route with backend-list length equal —
not merely greater than or equal — to the desired count. -/
theorem C2_exact_count_amended (pattern routeID : String) (n : Nat)
    (pre : List QueryResponse) (q q' : QueryResponse)
    (rest : List (Except String QueryResponse))
    (hpre : ∀ p ∈ pre, snapshotReady pattern routeID n p = false)
    (hq : snapshotReady pattern routeID n q = true) :
    waitForContainers pattern routeID n
      (pre.map Except.ok ++ Except.ok q :: rest) = .exitAfter (pre.length + 1) ∧
    (snapshotReady pattern routeID n q' = true ↔
      ∃ e ∈ q'.Endpoints, pattern = e.Pattern ∧
        ∃ r ∈ e.Routes, r.ID = routeID ∧ r.Backends.length = n) :=
  ⟨waitForContainers_first_ready pattern routeID n pre q rest hpre hq,
   snapshotReady_iff pattern routeID n q'⟩

/-- Witness for the amended C2: the spec's own scenario — desired count 3,
snapshots reporting 0, 1 and 3 bound backends — exits after exactly 3
polls. -/
theorem C2_exact_count_amended_witness :
    (∀ p ∈ [QueryResponse.mk "tok"
        [Endpoint.mk "example.com" "me" [Route.mk "r2" "" 0 "" []]] [],
      QueryResponse.mk "tok"
        [Endpoint.mk "example.com" "me" [Route.mk "r2" "" 0 "" ["b1"]]] []],
      snapshotReady "example.com" "r2" 3 p = false) ∧
    snapshotReady "example.com" "r2" 3
      (QueryResponse.mk "tok"
        [Endpoint.mk "example.com" "me"
          [Route.mk "r2" "" 0 "" ["b1", "b2", "b3"]]] []) = true ∧
    (waitForContainers "example.com" "r2" 3
        ([QueryResponse.mk "tok"
            [Endpoint.mk "example.com" "me" [Route.mk "r2" "" 0 "" []]] [],
          QueryResponse.mk "tok"
            [Endpoint.mk "example.com" "me" [Route.mk "r2" "" 0 "" ["b1"]]] []].map
            Except.ok ++
          Except.ok (QueryResponse.mk "tok"
            [Endpoint.mk "example.com" "me"
              [Route.mk "r2" "" 0 "" ["b1", "b2", "b3"]]] []) :: []) =
        .exitAfter 3 ∧
     (snapshotReady "example.com" "r2" 3
        (QueryResponse.mk "tok"
          [Endpoint.mk "example.com" "me"
            [Route.mk "r2" "" 0 "" ["b1", "b2", "b3"]]] []) = true ↔
      ∃ e ∈ (QueryResponse.mk "tok"
          [Endpoint.mk "example.com" "me"
            [Route.mk "r2" "" 0 "" ["b1", "b2", "b3"]]] []).Endpoints,
        "example.com" = e.Pattern ∧
        ∃ r ∈ e.Routes, r.ID = "r2" ∧ r.Backends.length = 3)) :=
  ⟨by decide, by decide,
    C2_exact_count_amended "example.com" "r2" 3 _ _ _ [] (by decide) (by decide)⟩

/-! ### Claim C7 -/

/-- C7: a snapshot in which the named endpoint or the named route is absent
is treated as not-yet-ready — the wait moves on to the remaining snapshots
rather than failing; whereas a query error aborts the wait fatally at once,
regardless of any remaining snapshots. -/
theorem C7_absence_polls_error_fatal (pattern routeID : String) (n : Nat)
    (q : QueryResponse) (msg : String)
    (rest : List (Except String QueryResponse))
    (habs : ∀ e ∈ q.Endpoints, pattern = e.Pattern →
      ∀ r ∈ e.Routes, r.ID ≠ routeID) :
    waitForContainers pattern routeID n (Except.ok q :: rest) =
      (match waitForContainers pattern routeID n rest with
       | .exitAfter k => .exitAfter (k + 1)
       | o => o) ∧
    waitForContainers pattern routeID n (Except.error msg :: rest) =
      .fatal msg := by
  constructor
  · have hf := snapshotReady_eq_false pattern routeID n q habs
    simp [waitForContainers, hf]
  · rfl

/-- Witness for C7: the endpoint exists but the target route does not; a
network failure message. -/
theorem C7_absence_polls_error_fatal_witness :
    (∀ e ∈ (QueryResponse.mk "tok"
        [Endpoint.mk "example.com" "me" [Route.mk "r1" "" 100 "" ["b"]]]
        []).Endpoints,
      "example.com" = e.Pattern → ∀ r ∈ e.Routes, r.ID ≠ "r2") ∧
    (waitForContainers "example.com" "r2" 1
        [Except.ok (QueryResponse.mk "tok"
          [Endpoint.mk "example.com" "me" [Route.mk "r1" "" 100 "" ["b"]]] [])] =
      (match waitForContainers "example.com" "r2" 1 [] with
       | .exitAfter k => .exitAfter (k + 1)
       | o => o) ∧
     waitForContainers "example.com" "r2" 1 [Except.error "network down"] =
      .fatal "network down") :=
  ⟨by decide,
    C7_absence_polls_error_fatal "example.com" "r2" 1 _ "network down" []
      (by decide)⟩
